import Mathlib

/-!
Verification development for the ddos-globe-visualizer repository.

Each namespace shallowly embeds one JavaScript module of the repository:

* `CacheJs`      — `frontend/src/utils/cache.js` (session TTL cache).
* `StreamFixed`  — `frontend/src/hooks/useDShieldStreamFixed.js`
                   (rate-limited arc delivery, bounded pending queue,
                   reconnection with exponential backoff).
* `StreamHook`   — `frontend/src/hooks/useDShieldStream.js`
                   (message dispatch without a pending queue).
* `WsHook`       — `frontend/src/useWebSocket.js` (normalization of raw
                   broadcast records with geo defaults).
* `LiveMode`     — the LiveMode component (mock attack generator and the
                   `/ws/live` WebSocket client).

JavaScript numbers are modelled as `ℚ` (only selection, comparison,
`Math.floor`, `Math.round` and affine arithmetic occur, so `ℚ` is an
exact model), millisecond clock readings as `Int`, absent object
properties as `Option`, and `Math.random()` draws as explicit rational
parameters `r` with `0 ≤ r < 1`.
-/

namespace Js

/-- `a || d` for a string-valued JavaScript expression `a` that may be
absent: the empty string is falsy. -/
def orStrD (a : Option String) (d : String) : String :=
  match a with
  | some s => if s = "" then d else s
  | none => d

/-- `a || b` for string-valued JavaScript expressions where the fallback
may itself be absent. -/
def orStr (a b : Option String) : Option String :=
  match a with
  | some s => if s = "" then b else some s
  | none => b

/-- `a || d` for a number-valued JavaScript expression carried as epoch
milliseconds: `0` is falsy. -/
def orIntD (a : Option Int) (d : Int) : Int :=
  match a with
  | some n => if n = 0 then d else n
  | none => d

/-- `Math.floor(r * k)` for a `Math.random()` draw `r`: the random index
into a `k`-element array. -/
def randIdx (r : ℚ) (k : ℕ) : ℕ :=
  (⌊r * k⌋).toNat

/-- `l[Math.floor(r * l.length)]`, with an explicit default for the
out-of-range case that `0 ≤ r < 1` rules out. -/
def pickD {α : Type} (l : List α) (r : ℚ) (d : α) : α :=
  (l.get? (randIdx r l.length)).getD d

/-- `Math.round`, which on JavaScript numbers is `⌊x + 0.5⌋`. -/
def jsRound (q : ℚ) : ℤ := ⌊q + 1/2⌋

end Js

namespace CacheJs

/-- One entry of the session cache: `cache.set(key, { value, expires: Date.now() + ttlMs })`. -/
structure Entry (V : Type) where
  value : V
  expires : Int
deriving Repr, DecidableEq

/-- The `cache` `Map`, modelled as an association list (at most one binding
per key is maintained by `setCache`). -/
def Cache (K V : Type) : Type := List (K × Entry V)

instance (K V : Type) : Inhabited (Cache K V) := ⟨([] : List (K × Entry V))⟩

/-- `setCache(key, value, ttlMs = 600000)`: `Map.set` replaces any existing
binding for `key`. -/
def setCache {K V : Type} [DecidableEq K] (now : Int) (c : Cache K V)
    (key : K) (value : V) (ttlMs : Int) : Cache K V :=
  (key, ⟨value, now + ttlMs⟩) :: c.filter (fun p => !(p.1 == key))

/-- `getCache(key)`: returns `undefined` on a missing key; on an expired
entry (`Date.now() > entry.expires`) deletes it and returns `undefined`;
otherwise returns the stored value.  The pair is (returned value, cache
after the read). -/
def getCache {K V : Type} [DecidableEq K] (now : Int) (c : Cache K V)
    (key : K) : Option V × Cache K V :=
  match c.lookup key with
  | none => (none, c)
  | some e =>
    if e.expires < now then
      (none, c.filter (fun p => !(p.1 == key)))
    else
      (some e.value, c)

end CacheJs

namespace StreamFixed

/-- `arcInterval = 7000`: minimum milliseconds between delivered arcs. -/
def arcInterval : Int := 7000

/-- `maxReconnectAttempts = 5`. -/
def maxReconnectAttempts : Nat := 5

/-- The `msg.data` payload of a `type == "attack"` stream message.  Every
field of the JavaScript object may be absent, hence `Option`. -/
structure DEvent where
  id : Option String
  src_lat : Option ℚ
  src_lng : Option ℚ
  dst_lat : Option ℚ
  dst_lng : Option ℚ
  confidence : Option ℚ
  reported_at : Option Int
  source : Option String
  description : Option String
deriving Repr, DecidableEq

/-- `getColorByConfidence`. -/
def getColorByConfidence (confidence : ℚ) : String :=
  if confidence ≥ 70 then "red"
  else if confidence ≥ 30 then "orange"
  else "yellow"

/-- The arc object handed to `addArc`. -/
structure Arc where
  id : String
  startLat : ℚ
  startLng : ℚ
  endLat : ℚ
  endLng : ℚ
  color : String
  altitude : ℚ
  timestamp : Int
  source : String
  confidence : ℚ
  description : Option String
  isFallback : Bool
  opacity : ℚ
deriving Repr, DecidableEq

/-- The fallback test of `processPendingEvents`:
`event.source === "fallback/mock" || event.source === "fallback/cache"`. -/
def isFallbackSource (source : Option String) : Bool :=
  source == some "fallback/mock" || source == some "fallback/cache"

/-- The arc built inside `processPendingEvents` from a dequeued event.
`event.src_lat || 0` etc. default absent (or zero) coordinates to `0`;
`Number(event.confidence ?? 0) || 0` defaults the confidence to `0`;
`event.reported_at ? getTime(...) : Date.now()` is modelled with
`reported_at` already carried as epoch milliseconds. -/
def mkArc (now : Int) (event : DEvent) : Arc :=
  let confidence : ℚ := event.confidence.getD 0
  let fb : Bool := isFallbackSource event.source
  { id := Js.orStrD event.id ("dshield-" ++ toString now)
    startLat := event.src_lat.getD 0
    startLng := event.src_lng.getD 0
    endLat := event.dst_lat.getD 0
    endLng := event.dst_lng.getD 0
    color := getColorByConfidence confidence
    altitude := 1/4 + confidence / 100 * (1/2)
    timestamp := Js.orIntD event.reported_at now
    source := Js.orStrD event.source "dshield"
    confidence := confidence
    description := event.description
    isFallback := fb
    opacity := if fb then 7/10 else 1 }

/-- The mutable refs of the hook that the rate limiter touches:
`lastArcTimeRef`, `pendingEventsRef`, plus the trace of `addArc` calls
(newest first, each with the clock reading at which it was made). -/
structure HubState where
  lastArcTime : Int
  pending : List DEvent
  delivered : List (Int × Arc)
deriving Repr, DecidableEq

/-- Hook initialization: `lastArcTimeRef = 0`, empty queue, no arcs yet. -/
def initHub : HubState := ⟨0, [], []⟩

/-- `processPendingEvents` at clock reading `now`: when
`now - lastArcTime >= arcInterval` and the queue is non-empty, `shift` the
oldest event, deliver it through `addArc`, stamp `lastArcTime = now`, and
trim the queue to its newest 5 entries (`slice(-5)`) when it still holds
more than 5. -/
def processPendingEvents (now : Int) (s : HubState) : HubState :=
  if s.lastArcTime + arcInterval ≤ now then
    match s.pending with
    | [] => s
    | e :: rest =>
      let rest2 := if rest.length > 5 then rest.drop (rest.length - 5) else rest
      { lastArcTime := now
        pending := rest2
        delivered := (now, mkArc now e) :: s.delivered }
  else s

/-- `ws.onmessage` for a `type == "attack"` message: push the event onto the
pending queue, then run `processPendingEvents`. -/
def onAttackMessage (now : Int) (e : DEvent) (s : HubState) : HubState :=
  processPendingEvents now { s with pending := s.pending ++ [e] }

/-- One firing of the 1-second `setInterval` drain timer. -/
def onDrainTick (now : Int) (s : HubState) : HubState :=
  processPendingEvents now s

/-- An externally-timestamped input to the hub. -/
inductive HubStep where
  | attack (now : Int) (e : DEvent)
  | tick (now : Int)
deriving Repr, DecidableEq

/-- Apply one input. -/
def hubStep (s : HubState) : HubStep → HubState
  | .attack now e => onAttackMessage now e s
  | .tick now => onDrainTick now s

/-- Run the hub from its initial state over a list of inputs. -/
def hubRun (steps : List HubStep) : HubState :=
  steps.foldl hubStep initHub

/-- Minimum spacing of the delivery trace (newest first): any two
chronologically successive deliveries are at least `arcInterval` apart. -/
def chronoB : List (Int × Arc) → Bool
  | [] => true
  | [_] => true
  | (t2, _) :: (t1, a) :: rest =>
    decide (t1 + arcInterval ≤ t2) && chronoB ((t1, a) :: rest)

/-- Invariant tying the delivery trace to `lastArcTimeRef`: the trace is
`arcInterval`-spaced and its newest entry is not later than
`lastArcTime`. -/
def HubInv (s : HubState) : Prop :=
  chronoB s.delivered = true ∧
    ∀ t a rest, s.delivered = (t, a) :: rest → t ≤ s.lastArcTime

/-- `1000 * Math.pow(2, attempt)` capped by `Math.min(30000, ...)`. -/
def backoffMs (attempt : Nat) : Int :=
  min 30000 (1000 * 2 ^ attempt)

/-- What one run of `ws.onclose` does with the reconnection counter:
the resulting `reconnectAttempts`, the delay of the reconnect timer it
schedules (if any), and whether it reports the terminal error status. -/
structure CloseOutcome where
  attempts : Nat
  schedule : Option Int
  reportError : Bool
deriving Repr, DecidableEq

/-- `ws.onclose`: with `liveMode` on and fewer than `maxReconnectAttempts`
used, schedule a reconnect after `backoffMs` and increment the counter;
otherwise, when the counter has reached the maximum, report the error and
schedule nothing. -/
def onClose (liveMode : Bool) (attempts : Nat) : CloseOutcome :=
  if liveMode && attempts < maxReconnectAttempts then
    ⟨attempts + 1, some (backoffMs attempts), false⟩
  else if attempts ≥ maxReconnectAttempts then
    ⟨attempts, none, true⟩
  else
    ⟨attempts, none, false⟩

end StreamFixed

namespace StreamHook

/-- The optional `msg.arc` payload of a raw backend broadcast. -/
structure ArcPayload where
  startLat : Option ℚ
  startLng : Option ℚ
  endLat : Option ℚ
  endLng : Option ℚ
deriving Repr, DecidableEq

/-- The optional `msg.geo_info` payload (only the fields this hook reads). -/
structure SGeoInfo where
  latitude : Option ℚ
  lat : Option ℚ
  longitude : Option ℚ
  lon : Option ℚ
  lng : Option ℚ
deriving Repr, DecidableEq

/-- The optional `msg.abuse_info` payload (only the field this hook reads). -/
structure SAbuse where
  abuseConfidenceScore : Option ℚ
deriving Repr, DecidableEq

/-- A parsed stream message as read by `useDShieldStream`: a
`{type, data}` envelope or a raw backend broadcast. -/
structure SMsg where
  type : Option String
  data : Option StreamFixed.DEvent
  arc : Option ArcPayload
  geo_info : Option SGeoInfo
  abuse_info : Option SAbuse
  id : Option String
  timestamp : Option Int
deriving Repr, DecidableEq

/-- The arc this hook hands to `addArc`.  In the `type == "attack"` branch
the start/end coordinates are copied without defaults, so they may be
absent; in the raw branch `isFallback`/`opacity`/`description` are not
set. -/
structure SArc where
  id : String
  startLat : Option ℚ
  startLng : Option ℚ
  endLat : Option ℚ
  endLng : Option ℚ
  color : String
  altitude : ℚ
  timestamp : Int
  source : String
  confidence : ℚ
  description : Option String
  isFallback : Option Bool
  opacity : Option ℚ
deriving Repr, DecidableEq

/-- `arcPayload.endLat ?? msg?.geo_info?.latitude ?? msg?.geo_info?.lat`
(with `arcPayload = msg?.arc || {}`). -/
def rawEndLat (msg : SMsg) : Option ℚ :=
  (msg.arc.bind ArcPayload.endLat) <|> (msg.geo_info.bind SGeoInfo.latitude)
    <|> (msg.geo_info.bind SGeoInfo.lat)

/-- `arcPayload.endLng ?? msg?.geo_info?.longitude ?? msg?.geo_info?.lon ??
msg?.geo_info?.lng`. -/
def rawEndLng (msg : SMsg) : Option ℚ :=
  (msg.arc.bind ArcPayload.endLng) <|> (msg.geo_info.bind SGeoInfo.longitude)
    <|> (msg.geo_info.bind SGeoInfo.lon) <|> (msg.geo_info.bind SGeoInfo.lng)

/-- `ws.onmessage` of `useDShieldStream`, returning the arc passed to
`addArc`, or `none` when the message produces no arc (status, error, and
raw messages without numeric end coordinates).  A malformed (non-JSON)
frame is caught and also yields `none`. -/
def streamOnMessage (now : Int) (m : Option SMsg) : Option SArc :=
  match m with
  | none => none
  | some msg =>
    if msg.type == some "status" then none
    else if msg.type == some "error" then none
    else if msg.type == some "attack" && msg.data.isSome then
      match msg.data with
      | none => none
      | some e =>
        let confidence : ℚ := e.confidence.getD 0
        let fb : Bool := StreamFixed.isFallbackSource e.source
        some
          { id := Js.orStrD e.id ("dshield-" ++ toString now)
            startLat := e.src_lat
            startLng := e.src_lng
            endLat := e.dst_lat
            endLng := e.dst_lng
            color := StreamFixed.getColorByConfidence confidence
            altitude := 1/4 + confidence / 100 * (1/2)
            timestamp := Js.orIntD e.reported_at now
            source := Js.orStrD e.source "dshield"
            confidence := confidence
            description := e.description
            isFallback := some fb
            opacity := some (if fb then 7/10 else 1) }
    else
      match rawEndLat msg, rawEndLng msg with
      | some endLat, some endLng =>
        let confidence : ℚ :=
          ((msg.abuse_info.bind SAbuse.abuseConfidenceScore).getD 0)
        some
          { id := Js.orStrD msg.id ("ws-" ++ toString now)
            startLat := some ((msg.arc.bind ArcPayload.startLat).getD 0)
            startLng := some ((msg.arc.bind ArcPayload.startLng).getD 0)
            endLat := some endLat
            endLng := some endLng
            color := StreamFixed.getColorByConfidence confidence
            altitude := 1/4 + confidence / 100 * (1/2)
            timestamp := Js.orIntD msg.timestamp now
            source := "ws"
            confidence := confidence
            description := none
            isFallback := none
            opacity := none }
      | _, _ => none

end StreamHook

namespace WsHook

/-- A geo payload as read by `useWebSocket` (only the consulted fields). -/
structure WGeo where
  latitude : Option ℚ
  lat : Option ℚ
  longitude : Option ℚ
  lon : Option ℚ
  lng : Option ℚ
deriving Repr, DecidableEq

/-- `{}`: the default geo object when none of `geo_info`/`geoInfo`/`geo`
is present. -/
def emptyGeo : WGeo := ⟨none, none, none, none, none⟩

/-- An abuse payload as read by `useWebSocket`. -/
structure WAbuse where
  abuseConfidenceScore : Option ℚ
  score : Option ℚ
  abuse_score : Option ℚ
deriving Repr, DecidableEq

/-- `{}`: the default abuse object. -/
def emptyAbuse : WAbuse := ⟨none, none, none⟩

/-- The arc object `{startLat, startLng, endLat, endLng}`. -/
structure WArc where
  startLat : ℚ
  startLng : ℚ
  endLat : ℚ
  endLng : ℚ
deriving Repr, DecidableEq

/-- A parsed raw broadcast record. -/
structure WRaw where
  ip : Option String
  geo_info : Option WGeo
  geoInfo : Option WGeo
  geo : Option WGeo
  abuse_info : Option WAbuse
  abuseInfo : Option WAbuse
  abuse : Option WAbuse
  arc : Option WArc
  severity : Option String
  timestamp : Option Int
deriving Repr, DecidableEq

/-- `computeArcFromGeo(geo = {})`:
`lat = geo?.latitude ?? geo?.lat ?? 0`, `lon = geo?.longitude ?? geo?.lon
?? geo?.lng ?? 0`, start pinned to the origin. -/
def computeArcFromGeo (geo : WGeo) : WArc :=
  { startLat := 0
    startLng := 0
    endLat := (geo.latitude <|> geo.lat).getD 0
    endLng := (geo.longitude <|> geo.lon <|> geo.lng).getD 0 }

/-- `computeSeverity(abuse = {})`. -/
def computeSeverity (abuse : WAbuse) : String :=
  let score : ℚ :=
    (abuse.abuseConfidenceScore <|> abuse.score <|> abuse.abuse_score).getD 0
  if score ≥ 70 then "High"
  else if score ≥ 30 then "Medium"
  else "Low"

/-- The normalized event stored in `events`. -/
structure WNorm where
  ip : Option String
  geo_info : WGeo
  abuse_info : WAbuse
  arc : WArc
  severity : String
  timestamp : Int
  raw : WRaw
deriving Repr, DecidableEq

/-- The normalization performed by `handleMessage` on a parsed record. -/
def normalizeRaw (now : Int) (raw : WRaw) : WNorm :=
  let geo := (raw.geo_info <|> raw.geoInfo <|> raw.geo).getD emptyGeo
  let abuse := (raw.abuse_info <|> raw.abuseInfo <|> raw.abuse).getD emptyAbuse
  { ip := raw.ip
    geo_info := geo
    abuse_info := abuse
    arc := raw.arc.getD (computeArcFromGeo geo)
    severity := Js.orStrD raw.severity (computeSeverity abuse)
    timestamp := Js.orIntD raw.timestamp now
    raw := raw }

/-- `MAX_EVENTS = 500`. -/
def MAX_EVENTS : Nat := 500

/-- `handleMessage`: a malformed frame (`JSON.parse` throws, modelled as
`none`) is caught, logged, and leaves `events` unchanged; a parsed record
is normalized and, when `liveMode` is on, prepended to `events` which is
then truncated to `MAX_EVENTS`. -/
def handleMessage (liveModeOn : Bool) (now : Int) (msg : Option WRaw)
    (events : List WNorm) : List WNorm :=
  match msg with
  | none => events
  | some raw =>
    let normalized := normalizeRaw now raw
    if liveModeOn then (normalized :: events).take MAX_EVENTS else events

/-- Processing of a whole batch of frames, each with the clock reading at
which it arrived. -/
def handleBatch (liveModeOn : Bool) (msgs : List (Int × Option WRaw))
    (events : List WNorm) : List WNorm :=
  msgs.foldl (fun evs m => handleMessage liveModeOn m.1 m.2 evs) events

end WsHook

namespace LiveMode

/-- One city record of `COUNTRY_DATABASE`: every literal in the database
carries a name, both coordinates, and a non-empty attack list. -/
structure City where
  name : String
  lat : ℚ
  lng : ℚ
  attacks : List String
deriving Repr, DecidableEq

/-- One country record of `COUNTRY_DATABASE`. -/
structure Country where
  country : String
  cities : List City
deriving Repr, DecidableEq

/-- Default city for the out-of-range array access that `0 ≤ r < 1`
rules out. -/
def noCity : City := ⟨"", 0, 0, []⟩

/-- The `switch (attackType)` computing `confidencePct`. -/
def confidencePct (attackType : String) (r : ℚ) : ℤ :=
  if attackType = "State-sponsored" ∨ attackType = "APT"
      ∨ attackType = "Cyber Warfare" then
    85 + ⌊r * 15⌋
  else if attackType = "DDoS" then
    70 + ⌊r * 25⌋
  else if attackType = "Ransomware" ∨ attackType = "Malware" then
    60 + ⌊r * 30⌋
  else if attackType = "Phishing" ∨ attackType = "Banking Fraud" then
    50 + ⌊r * 35⌋
  else
    40 + ⌊r * 40⌋

/-- The `sources` table of `generateRealisticSource`, with its
`|| ["Unknown Source"]` default. -/
def sourcesFor (attackType : String) : List String :=
  match attackType with
  | "DDoS" =>
    ["Botnet", "Distributed Network", "Compromised IoT Devices",
     "Reflection Attack"]
  | "Phishing" =>
    ["Email Campaign", "SMS Phishing", "Social Engineering", "Fake Website"]
  | "Malware" =>
    ["Email Attachment", "Drive-by Download", "USB Drop", "Watering Hole"]
  | "Ransomware" =>
    ["Email Campaign", "Remote Desktop", "Vulnerability Exploit",
     "Supply Chain"]
  | "State-sponsored" =>
    ["APT Group", "Government Agency", "Military Unit",
     "Intelligence Service"]
  | "Banking Fraud" =>
    ["Card Skimming", "ATM Malware", "Online Banking", "Mobile Banking"]
  | "Data Breach" =>
    ["SQL Injection", "Insider Access", "Third-party Vendor",
     "Cloud Misconfiguration"]
  | "Cryptocurrency Mining" =>
    ["Browser Mining", "Infected Software", "Cloud Instance",
     "Container Escape"]
  | "Botnet" =>
    ["IoT Compromise", "Malware Distribution", "Command & Control",
     "P2P Network"]
  | "Insider Threat" =>
    ["Disgruntled Employee", "Privilege Abuse", "Data Exfiltration",
     "Sabotage"]
  | "Industrial Espionage" =>
    ["Spear Phishing", "Watering Hole", "Supply Chain", "Physical Access"]
  | "Cyber Warfare" =>
    ["Critical Infrastructure", "Government Systems", "Military Networks",
     "Power Grid"]
  | "Financial Crime" =>
    ["Money Laundering", "Fraud Ring", "Identity Theft", "Payment Fraud"]
  | "IoT Attack" =>
    ["Default Credentials", "Firmware Exploit", "Protocol Abuse",
     "Physical Access"]
  | "Cloud Attack" =>
    ["Misconfiguration", "API Abuse", "Container Escape",
     "Privilege Escalation"]
  | "API Abuse" =>
    ["Rate Limiting Bypass", "Authentication Bypass", "Data Scraping",
     "Injection Attack"]
  | "Supply Chain" =>
    ["Software Compromise", "Hardware Backdoor", "Third-party Access",
     "Update Poisoning"]
  | _ => ["Unknown Source"]

/-- `generateRealisticSource(attackType)`. -/
def generateRealisticSource (attackType : String) (r : ℚ) : String :=
  Js.pickD (sourcesFor attackType) r ("Unknown Source")

/-- The `targets` table of `generateRealisticTarget`, with its
`|| ["Unknown Target"]` default. -/
def targetsFor (attackType : String) : List String :=
  match attackType with
  | "DDoS" =>
    ["Web Server", "DNS Server", "Game Server", "Streaming Service",
     "E-commerce Site"]
  | "Phishing" =>
    ["Banking Customers", "Corporate Employees", "Government Officials",
     "Healthcare Workers"]
  | "Malware" =>
    ["Corporate Network", "Government System", "Healthcare Facility",
     "Educational Institution"]
  | "Ransomware" =>
    ["Hospital", "School District", "Municipal Government", "Law Firm",
     "Manufacturing Plant"]
  | "State-sponsored" =>
    ["Government Agency", "Critical Infrastructure", "Military Base",
     "Research Facility"]
  | "Banking Fraud" =>
    ["ATM Network", "Online Banking", "Credit Card System",
     "Payment Processor"]
  | "Data Breach" =>
    ["Customer Database", "Employee Records", "Financial Data",
     "Personal Information"]
  | "Cryptocurrency Mining" =>
    ["Corporate Servers", "Cloud Infrastructure", "Gaming PCs",
     "Mobile Devices"]
  | "Botnet" =>
    ["IoT Devices", "Home Routers", "Security Cameras", "Smart Appliances"]
  | "Insider Threat" =>
    ["Corporate Data", "Customer Information", "Financial Records",
     "Intellectual Property"]
  | "Industrial Espionage" =>
    ["Trade Secrets", "Research Data", "Manufacturing Process",
     "Customer List"]
  | "Cyber Warfare" =>
    ["Power Grid", "Water Treatment", "Transportation",
     "Communication Systems"]
  | "Financial Crime" =>
    ["Banking System", "Payment Network", "Cryptocurrency Exchange",
     "Investment Platform"]
  | "IoT Attack" =>
    ["Smart Home", "Industrial Sensors", "Medical Devices",
     "Vehicle Systems"]
  | "Cloud Attack" =>
    ["Cloud Storage", "Container Registry", "API Gateway",
     "Database Service"]
  | "API Abuse" =>
    ["Social Media API", "Payment API", "Mapping Service",
     "Weather Service"]
  | "Supply Chain" =>
    ["Software Update", "Hardware Component", "Third-party Service",
     "Development Tool"]
  | _ => ["Unknown Target"]

/-- `generateRealisticTarget(city, attackType)`; the city argument is not
consulted by the table lookup. -/
def generateRealisticTarget (city : String) (attackType : String)
    (r : ℚ) : String :=
  let _ := city
  Js.pickD (targetsFor attackType) r ("Unknown Target")

/-- `generateAttackDescription(attackType, city, country)`. -/
def generateAttackDescription (attackType city country : String) : String :=
  match attackType with
  | "DDoS" =>
    "Large-scale distributed denial-of-service attack targeting " ++ city
      ++ " infrastructure, causing service disruptions and potential financial losses."
  | "Phishing" =>
    "Sophisticated phishing campaign targeting " ++ city
      ++ " residents, attempting to steal credentials and personal information."
  | "Malware" =>
    "Advanced malware deployment detected in " ++ city
      ++ ", potentially compromising systems and data integrity."
  | "Ransomware" =>
    "Ransomware attack on " ++ city
      ++ " organization, encrypting critical data and demanding payment for decryption."
  | "State-sponsored" =>
    "Suspected state-sponsored cyber operation targeting " ++ city
      ++ " critical infrastructure, indicating advanced persistent threat."
  | "Banking Fraud" =>
    "Financial fraud operation in " ++ city
      ++ ", targeting banking systems and customer accounts."
  | "Data Breach" =>
    "Unauthorized access to sensitive data systems in " ++ city
      ++ ", potentially exposing personal and financial information."
  | "Cryptocurrency Mining" =>
    "Cryptocurrency mining malware detected in " ++ city
      ++ ", hijacking computing resources for profit."
  | "Botnet" =>
    "Botnet recruitment activity in " ++ city
      ++ ", compromising devices for coordinated attacks."
  | "Insider Threat" =>
    "Suspicious insider activity detected in " ++ city
      ++ " organization, potentially compromising security."
  | "Industrial Espionage" =>
    "Industrial espionage operation targeting " ++ city
      ++ " businesses, attempting to steal trade secrets."
  | "Cyber Warfare" =>
    "Cyber warfare operation targeting " ++ city
      ++ " critical infrastructure, indicating nation-state involvement."
  | "Financial Crime" =>
    "Financial crime operation in " ++ city
      ++ ", involving money laundering and fraud schemes."
  | "IoT Attack" =>
    "IoT device compromise detected in " ++ city
      ++ ", potentially creating security vulnerabilities."
  | "Cloud Attack" =>
    "Cloud infrastructure attack in " ++ city
      ++ ", exploiting misconfigurations and vulnerabilities."
  | "API Abuse" =>
    "API abuse detected in " ++ city
      ++ ", potentially causing service degradation and data exposure."
  | "Supply Chain" =>
    "Supply chain attack targeting " ++ city
      ++ " organizations, compromising software or hardware components."
  | _ =>
    "Cybersecurity incident detected in " ++ city ++ ", " ++ country ++ "."

/-- The `detail` object dispatched by `generateMockAttack` through the
`livemode-attack` CustomEvent.  The object literal never sets an
`isFallback` property, so that field is modelled as `Option Bool` and is
`none` on every mock event. -/
structure MockDetail where
  lat : ℚ
  lng : ℚ
  confidencePct : ℤ
  ip : String
  seenAt : Int
  country : String
  city : String
  attackType : String
  severity : String
  source : String
  target : String
  timestamp : String
  description : String
  isFallback : Option Bool
deriving Repr, DecidableEq

/-- The random octet tail of the generated IP:
`${...}${o1}.${o2}.${o3}` with `oX = Math.floor(Math.random() * 255)`.
The leading range string is drawn from `COUNTRY_IP_RANGES` and passed in
here already selected. -/
def mockIp (ipRange : String) (r1 r2 r3 : ℚ) : String :=
  ipRange ++ toString (Js.randIdx r1 255) ++ "." ++ toString (Js.randIdx r2 255)
    ++ "." ++ toString (Js.randIdx r3 255)

/-- `generateMockAttack`, with every `Math.random()` draw an explicit
parameter and `new Date()` readings abstracted by the millisecond clock
`now` (`toISOString` is rendered as the decimal clock value; no claim
consults its format). -/
def generateMockAttack (c : Country) (cityR attackR confR srcR tgtR : ℚ)
    (ipRange : String) (ipR1 ipR2 ipR3 : ℚ) (now : Int) : MockDetail :=
  let city := Js.pickD c.cities cityR noCity
  let attackType := Js.pickD city.attacks attackR ""
  let conf := confidencePct attackType confR
  { lat := city.lat
    lng := city.lng
    confidencePct := conf
    ip := mockIp ipRange ipR1 ipR2 ipR3
    seenAt := now
    country := c.country
    city := city.name
    attackType := attackType
    severity := if conf > 80 then "High" else if conf > 60 then "Medium" else "Low"
    source := generateRealisticSource attackType srcR
    target := generateRealisticTarget city.name attackType tgtR
    timestamp := toString now
    description := generateAttackDescription attackType city.name c.country
    isFallback := none }

/-- `ev?.geo` of a `/ws/live` attack event. -/
structure GeoLL where
  lat : Option ℚ
  lon : Option ℚ
deriving Repr, DecidableEq

/-- `ev?.geo_info` of a `/ws/live` attack event. -/
structure GeoInfoLL where
  latitude : Option ℚ
  longitude : Option ℚ
deriving Repr, DecidableEq

/-- The `data.event` payload of a `/ws/live` message. -/
structure WsEvent where
  geo : Option GeoLL
  geo_info : Option GeoInfoLL
  lat : Option ℚ
  lng : Option ℚ
  confidence : Option ℚ
  src_ip : Option String
  ip : Option String
  ioc : Option String
  seen_at : Option Int
deriving Repr, DecidableEq

/-- A parsed `/ws/live` frame: `{kind, event}`. -/
structure LiveMsg where
  kind : Option String
  event : Option WsEvent
deriving Repr, DecidableEq

/-- `ev?.geo?.lat ?? ev?.geo_info?.latitude ?? ev?.lat`. -/
def evLat (ev : WsEvent) : Option ℚ :=
  (ev.geo.bind GeoLL.lat) <|> (ev.geo_info.bind GeoInfoLL.latitude) <|> ev.lat

/-- `ev?.geo?.lon ?? ev?.geo_info?.longitude ?? ev?.lng`. -/
def evLng (ev : WsEvent) : Option ℚ :=
  (ev.geo.bind GeoLL.lon) <|> (ev.geo_info.bind GeoInfoLL.longitude) <|> ev.lng

/-- The `detail` object the `/ws/live` `onmessage` handler re-dispatches
for a real attack event. -/
structure LiveDetail where
  lat : ℚ
  lng : ℚ
  confidencePct : ℤ
  ip : Option String
  seenAt : Int
deriving Repr, DecidableEq

/-- `data?.kind === "attack" && data?.event`: the test that recognizes a
real attack frame (and stops the mock generator), checked before the
coordinate guard. -/
def isRealAttackMsg (m : LiveMsg) : Bool :=
  m.kind == some ("attack") && m.event.isSome

/-- The re-dispatch performed by `ws.onmessage` on `/ws/live`: for a real
attack frame whose resolved latitude/longitude are both numbers, dispatch
`{lat, lng, confidencePct: Math.round((ev.confidence || 0) * 100), ip,
seenAt}`; otherwise dispatch nothing. -/
def liveDispatch (now : Int) (m : LiveMsg) : Option LiveDetail :=
  if isRealAttackMsg m then
    match m.event with
    | none => none
    | some ev =>
      match evLat ev, evLng ev with
      | some la, some ln =>
        some
          { lat := la
            lng := ln
            confidencePct := Js.jsRound (ev.confidence.getD 0 * 100)
            ip := Js.orStr (Js.orStr ev.src_ip ev.ip) ev.ioc
            seenAt := Js.orIntD ev.seen_at now }
      | _, _ => none
  else none

/-- An event dispatched through the `livemode-attack` channel, tagged by
its origin. -/
inductive Dispatched where
  | mock (d : MockDetail)
  | live (d : LiveDetail)
deriving Repr, DecidableEq

/-- The mutable state of the LiveMode component: `status === "on"`,
whether `wsRef.current` is a live socket, whether the mock-data timer
(`mockDataIntervalRef`) is running, and the trace of dispatched events
(newest first). -/
structure LiveState where
  statusOn : Bool
  wsOpen : Bool
  mockActive : Bool
  dispatched : List Dispatched
deriving Repr, DecidableEq

/-- Component mount: status off, no socket, no mock timer. -/
def initLive : LiveState := ⟨false, false, false, []⟩

/-- Inputs to the LiveMode component. -/
inductive LiveInput where
  | wsOpenEvt
  | wsMessage (now : Int) (m : Option LiveMsg)
  | wsCloseEvt
  | userDisconnect
  | mockFire (c : Country) (cityR attackR confR srcR tgtR : ℚ)
      (ipRange : String) (ipR1 ipR2 ipR3 : ℚ) (now : Int)
deriving Repr

/-- One transition of the LiveMode component:

* `wsOpenEvt` — `ws.onopen`: set status on and `startMockData()`
  immediately, as a fallback until real data arrives;
* `wsMessage` — `ws.onmessage`: a malformed frame is caught and ignored;
  a real attack frame calls `stopMockData()` and then re-dispatches when
  the coordinates are numbers; any other frame is ignored;
* `wsCloseEvt` — `ws.onclose`: drops the socket and schedules a
  reconnect; the mock timer is not touched;
* `userDisconnect` — `disconnectWebSocket()`: closes the socket and
  `stopMockData()`;
* `mockFire` — one firing of the mock-data timer: dispatches a synthetic
  attack when the timer is running. -/
def liveStep (s : LiveState) : LiveInput → LiveState
  | .wsOpenEvt => { s with statusOn := true, wsOpen := true, mockActive := true }
  | .wsMessage now m =>
    match m with
    | none => s
    | some msg =>
      if isRealAttackMsg msg then
        match liveDispatch now msg with
        | some d =>
          { s with mockActive := false, dispatched := .live d :: s.dispatched }
        | none => { s with mockActive := false }
      else s
  | .wsCloseEvt => { s with wsOpen := false }
  | .userDisconnect => { s with wsOpen := false, mockActive := false }
  | .mockFire c cityR attackR confR srcR tgtR ipRange ipR1 ipR2 ipR3 now =>
    if s.mockActive then
      { s with dispatched :=
          .mock (generateMockAttack c cityR attackR confR srcR tgtR ipRange
            ipR1 ipR2 ipR3 now) :: s.dispatched }
    else s

/-- Run the component from mount over a list of inputs. -/
def liveRun (steps : List LiveInput) : LiveState :=
  steps.foldl liveStep initLive

end LiveMode

namespace Demo

/-- The first `COUNTRY_DATABASE` entry, used to instantiate the mock
generator on concrete inputs. -/
def unitedStates : LiveMode.Country :=
  { country := "United States"
    cities :=
      [ { name := "New York", lat := 40.7128, lng := -74.006,
          attacks := ["DDoS", "Phishing", "Malware", "Ransomware"] },
        { name := "Los Angeles", lat := 34.0522, lng := -118.2437,
          attacks := ["DDoS", "Data Breach", "Botnet"] },
        { name := "Chicago", lat := 41.8781, lng := -87.6298,
          attacks := ["DDoS", "Phishing", "Insider Threat"] },
        { name := "Miami", lat := 25.7617, lng := -80.1918,
          attacks := ["DDoS", "Malware", "Cryptocurrency Mining"] },
        { name := "Seattle", lat := 47.6062, lng := -122.3321,
          attacks := ["DDoS", "Cloud Attack", "API Abuse"] } ] }

/-- A stream event with every optional field absent. -/
def devNone : StreamFixed.DEvent :=
  ⟨none, none, none, none, none, none, none, none, none⟩

/-- Ten attack messages arriving within 900 ms of each other, starting at
clock reading 1000000. -/
def burst10 : List StreamFixed.HubStep :=
  [ .attack 1000000 devNone, .attack 1000100 devNone,
    .attack 1000200 devNone, .attack 1000300 devNone,
    .attack 1000400 devNone, .attack 1000500 devNone,
    .attack 1000600 devNone, .attack 1000700 devNone,
    .attack 1000800 devNone, .attack 1000900 devNone ]

/-- A `/ws/live` attack frame carrying plain `lat`/`lng` fields and a
confidence of 85 — the value the outbound stream protocol documents
(confidence is specified as a 0–100 score). -/
def liveMsg85 : LiveMode.LiveMsg :=
  { kind := some ("attack")
    event := some
      { geo := none, geo_info := none, lat := some 40, lng := some 50,
        confidence := some 85, src_ip := none, ip := none, ioc := none,
        seen_at := some 123 } }

/-- A `/ws/live` attack event whose confidence is the fraction `1/2`. -/
def evHalf : LiveMode.WsEvent :=
  { geo := none, geo_info := none, lat := some 40, lng := some 50,
    confidence := some (1/2), src_ip := none, ip := none, ioc := none,
    seen_at := some 123 }

/-- A `/ws/live` attack frame carrying `evHalf`. -/
def liveMsgHalf : LiveMode.LiveMsg :=
  { kind := some ("attack"), event := some evHalf }

/-- A raw broadcast record with every field absent. -/
def rawEmpty : WsHook.WRaw :=
  ⟨none, none, none, none, none, none, none, none, none, none⟩

/-- A raw broadcast frame with no `type`, no `arc` and no `geo_info`. -/
def rawNoGeo : StreamHook.SMsg :=
  ⟨none, none, none, none, none, none, none⟩

/-- A hub state holding seven queued events with the rate limiter idle
since the epoch. -/
def hub7 : StreamFixed.HubState :=
  ⟨0, List.replicate 7 devNone, []⟩

end Demo

section Theorems

open CacheJs StreamFixed StreamHook WsHook LiveMode Demo

/-- Filtering out a key removes its binding. -/
theorem lookup_filter_self {K V : Type} [DecidableEq K] (c : List (K × V))
    (k : K) : (c.filter fun p => !(p.1 == k)).lookup k = none := by
  induction c with
  | nil => rfl
  | cons p t ih =>
    obtain ⟨a, b⟩ := p
    rw [List.filter_cons]
    by_cases h : a = k
    · simpa [h] using ih
    · have hb : (a == k) = false := by simpa using h
      have hb2 : (k == a) = false := by
        simpa using fun hh => h hh.symm
      have hcond : (!(a == k)) = true := by simp [hb]
      rw [if_pos hcond, List.lookup_cons, hb2]
      exact ih

/-- Filtering out one key leaves the bindings of every other key alone. -/
theorem lookup_filter_other {K V : Type} [DecidableEq K] (c : List (K × V))
    (j k : K) (h : j ≠ k) :
    (c.filter fun p => !(p.1 == j)).lookup k = c.lookup k := by
  induction c with
  | nil => rfl
  | cons p t ih =>
    obtain ⟨a, b⟩ := p
    rw [List.filter_cons, List.lookup_cons]
    by_cases ha : a = j
    · have hb : (a == j) = true := by simpa using ha
      have hk : (k == a) = false := by
        subst ha
        simpa using fun hh => h hh.symm
      simp [hb, hk, ih]
    · have hb : (a == j) = false := by simpa using ha
      have hcond : (!(a == j)) = true := by simp [hb]
      rw [if_pos hcond, List.lookup_cons]
      cases hka : (k == a) with
      | true => rfl
      | false => exact ih

/-- An expired entry is removed by the read that discovers it. -/
theorem getCache_expired {K V : Type} [DecidableEq K] (now : Int)
    (c : CacheJs.Cache K V) (k : K) (e : CacheJs.Entry V)
    (hl : List.lookup k c = some e) (hexp : e.expires < now) :
    CacheJs.getCache now c k =
      (none, List.filter (fun p => !(p.1 == k)) c) := by
  unfold CacheJs.getCache
  simp [List.lookup, hl, hexp]

/-- C5: for every key, a cache get performed strictly after
`insertedAt + ttl` returns a miss, and the expired entry is removed from
the cache by that read. -/
theorem c5_get_after_ttl_misses {K V : Type} [DecidableEq K]
    (insertedAt t : Int) (c : CacheJs.Cache K V) (k : K) (v : V) (ttl : Int)
    (h : insertedAt + ttl < t) :
    (CacheJs.getCache t (CacheJs.setCache insertedAt c k v ttl) k).1 = none ∧
      List.lookup k
        (CacheJs.getCache t (CacheJs.setCache insertedAt c k v ttl) k).2 =
        none := by
  have hl : List.lookup k (CacheJs.setCache insertedAt c k v ttl) =
      some ⟨v, insertedAt + ttl⟩ := by
    unfold CacheJs.setCache
    rw [List.lookup_cons]
    simp
  have := getCache_expired t (CacheJs.setCache insertedAt c k v ttl) k
    ⟨v, insertedAt + ttl⟩ hl h
  rw [this]
  exact ⟨rfl, lookup_filter_self _ k⟩

/-- C5 witness: an entry inserted at `t = 0` with `ttl = 1000` ms is a
miss when read at `t = 1100` ms, and the read removes it. -/
theorem c5_get_after_ttl_misses_witness :
    (0 : Int) + 1000 < 1100 ∧
      ((CacheJs.getCache 1100
          (CacheJs.setCache 0 ([] : CacheJs.Cache String ℕ) ("ip") 7 1000)
          ("ip")).1 = none ∧
        List.lookup ("ip")
          (CacheJs.getCache 1100
            (CacheJs.setCache 0 ([] : CacheJs.Cache String ℕ) ("ip") 7 1000)
            ("ip")).2 = none) :=
  ⟨by norm_num,
   c5_get_after_ttl_misses 0 1100 ([] : CacheJs.Cache String ℕ) "ip" 7 1000
     (by norm_num)⟩

/-- C8 counterexample: there is no periodic sweep.  An entry inserted at
`t = 0` with `ttl = 1000` ms is still held by the cache at
`t = 1000000000` ms after a read and a write of a *different* key, even
though it expired long ago — memory for keys never read again is not
reclaimed. -/
theorem c8_counterexample :
    List.lookup ("k")
      (CacheJs.setCache 1000000000
        (CacheJs.getCache 1000000000
          (CacheJs.setCache 0 ([] : CacheJs.Cache String ℕ) ("k") 1 1000)
          ("j")).2
        ("j") 2 1000) = some ⟨1, 1000⟩ := by
  rfl

/-- C8 amended: eviction of expired entries is lazy only — the read that
finds an entry expired removes it, but no other operation does: a get or
set of a different key leaves the (possibly expired) entry in place, so
entries for keys never read again stay in the cache indefinitely. -/
theorem c8_lazy_eviction_no_sweep {K V : Type} [DecidableEq K]
    (now : Int) (c : CacheJs.Cache K V) (k j : K) (e : CacheJs.Entry V)
    (v : V) (ttl : Int) (hl : List.lookup k c = some e)
    (hexp : e.expires < now) (hjk : j ≠ k) :
    ((CacheJs.getCache now c k).1 = none ∧
        List.lookup k (CacheJs.getCache now c k).2 = none) ∧
      List.lookup k (CacheJs.setCache now c j v ttl) = List.lookup k c ∧
      List.lookup k (CacheJs.getCache now c j).2 = List.lookup k c := by
  refine ⟨?_, ?_, ?_⟩
  · rw [getCache_expired now c k e hl hexp]
    exact ⟨rfl, lookup_filter_self _ k⟩
  · unfold CacheJs.setCache
    rw [List.lookup_cons]
    have hk : (k == j) = false := by
      simpa using fun hh => hjk hh.symm
    rw [hk]
    exact lookup_filter_other c j k hjk
  · unfold CacheJs.getCache
    cases hlj : List.lookup j c with
    | none => simp [List.lookup, hlj]
    | some ej =>
      simp only [List.lookup, hlj]
      by_cases hexpj : ej.expires < now
      · simp only [if_pos hexpj]
        exact lookup_filter_other c j k hjk
      · simp [if_neg hexpj]

/-- C8 witness: instantiates the amended statement on a concrete one-entry
cache whose entry expired at 1000 ms, read and written through key `"j"`
at 99999 ms. -/
theorem c8_lazy_eviction_no_sweep_witness :
    List.lookup ("k")
        (CacheJs.setCache 0 ([] : CacheJs.Cache String ℕ) ("k") 1 1000) =
        some ⟨1, 1000⟩ ∧
      (1000 : Int) < 99999 ∧ ("j" : String) ≠ "k" ∧
      (((CacheJs.getCache 99999
            (CacheJs.setCache 0 ([] : CacheJs.Cache String ℕ) ("k") 1 1000)
            ("k")).1 = none ∧
          List.lookup ("k")
            (CacheJs.getCache 99999
              (CacheJs.setCache 0 ([] : CacheJs.Cache String ℕ) ("k") 1 1000)
              ("k")).2 = none) ∧
        List.lookup ("k")
          (CacheJs.setCache 99999
            (CacheJs.setCache 0 ([] : CacheJs.Cache String ℕ) ("k") 1 1000)
            ("j") 5 1000) =
          List.lookup ("k")
            (CacheJs.setCache 0 ([] : CacheJs.Cache String ℕ) ("k") 1 1000) ∧
        List.lookup ("k")
          (CacheJs.getCache 99999
            (CacheJs.setCache 0 ([] : CacheJs.Cache String ℕ) ("k") 1 1000)
            ("j")).2 =
          List.lookup ("k")
            (CacheJs.setCache 0 ([] : CacheJs.Cache String ℕ) ("k") 1 1000)) :=
  ⟨by decide, by decide, by decide,
   c8_lazy_eviction_no_sweep 99999
     (CacheJs.setCache 0 ([] : CacheJs.Cache String ℕ) "k" 1 1000) "k" "j"
     ⟨1, 1000⟩ 5 1000 (by decide) (by decide) (by decide)⟩

/-- C10: after a stream-connection close, while fewer than 5 attempts have
been used the client schedules a reconnect after
`min(30000, 1000·2^attempt)` ms and increments the attempt counter; once
5 attempts have been used, no reconnect is ever scheduled again (the
counter no longer changes) and the terminal error status is reported; the
counter never exceeds 5. -/
theorem c10_reconnect_backoff (attempts : Nat) :
    (attempts < StreamFixed.maxReconnectAttempts →
      StreamFixed.onClose true attempts =
        ⟨attempts + 1, some (min 30000 (1000 * 2 ^ attempts)), false⟩) ∧
      (StreamFixed.maxReconnectAttempts ≤ attempts →
        ∀ liveMode, StreamFixed.onClose liveMode attempts =
          ⟨attempts, none, true⟩) ∧
      (attempts ≤ StreamFixed.maxReconnectAttempts →
        ∀ liveMode, (StreamFixed.onClose liveMode attempts).attempts ≤
          StreamFixed.maxReconnectAttempts) := by
  unfold StreamFixed.onClose StreamFixed.backoffMs StreamFixed.maxReconnectAttempts
  refine ⟨fun h => ?_, fun h lm => ?_, fun h lm => ?_⟩
  · simp [h]
  · have hlt : ¬(attempts < 5) := by omega
    simp [hlt, h]
  · by_cases hlt : attempts < 5
    · have h5 : ¬(5 ≤ attempts) := by omega
      cases lm <;> simp [hlt, h5] <;> omega
    · have hge : 5 ≤ attempts := by omega
      cases lm <;> simp [hlt, hge] <;> exact h

/-- C10 witness: the 4th attempt is scheduled after `2^3` seconds; after
the 5th failure the hook reports the terminal error and never
reschedules. -/
theorem c10_reconnect_backoff_witness :
    (3 < StreamFixed.maxReconnectAttempts ∧
      StreamFixed.onClose true 3 = ⟨4, some 8000, false⟩) ∧
      StreamFixed.onClose true 5 = ⟨5, none, true⟩ := by
  refine ⟨⟨by decide, ?_⟩, ?_⟩
  · have h := (c10_reconnect_backoff 3).1 (by decide)
    simpa using h
  · exact (c10_reconnect_backoff 5).2.1 (by decide) true

/-- C9: a malformed (non-JSON) frame is caught inside `handleMessage`,
leaving the accumulated events — and hence the rest of the batch —
exactly as if the frame had never arrived; the handler never closes the
connection, so later frames are still processed. -/
theorem c9_malformed_never_aborts (liveModeOn : Bool) (now : Int)
    (events : List WsHook.WNorm) (ms1 ms2 : List (Int × Option WsHook.WRaw)) :
    WsHook.handleMessage liveModeOn now none events = events ∧
      WsHook.handleBatch liveModeOn (ms1 ++ (now, none) :: ms2) events =
        WsHook.handleBatch liveModeOn (ms1 ++ ms2) events := by
  constructor
  · rfl
  · unfold WsHook.handleBatch
    rw [List.foldl_append, List.foldl_cons, List.foldl_append]
    rfl

/-- `processPendingEvents` when the interval has elapsed and the queue is
non-empty: the head is delivered and the tail trimmed. -/
theorem processPending_eq_deliver (now : Int) (s : StreamFixed.HubState)
    (e : StreamFixed.DEvent) (rest : List StreamFixed.DEvent)
    (hc : s.lastArcTime + StreamFixed.arcInterval ≤ now)
    (hp : s.pending = e :: rest) :
    StreamFixed.processPendingEvents now s =
      { lastArcTime := now
        pending := if rest.length > 5 then rest.drop (rest.length - 5) else rest
        delivered := (now, StreamFixed.mkArc now e) :: s.delivered } := by
  unfold StreamFixed.processPendingEvents
  rw [hp, if_pos hc]

/-- `processPendingEvents` when the interval has not elapsed: no change. -/
theorem processPending_eq_skip (now : Int) (s : StreamFixed.HubState)
    (hc : ¬(s.lastArcTime + StreamFixed.arcInterval ≤ now)) :
    StreamFixed.processPendingEvents now s = s := by
  unfold StreamFixed.processPendingEvents
  rw [if_neg hc]

/-- `processPendingEvents` on an empty queue: no change. -/
theorem processPending_eq_empty (now : Int) (s : StreamFixed.HubState)
    (hp : s.pending = []) :
    StreamFixed.processPendingEvents now s = s := by
  unfold StreamFixed.processPendingEvents
  rw [hp]
  split <;> rfl

/-- `processPendingEvents` preserves the spacing invariant. -/
theorem hubInv_process (now : Int) (s : StreamFixed.HubState)
    (h : StreamFixed.HubInv s) :
    StreamFixed.HubInv (StreamFixed.processPendingEvents now s) := by
  by_cases hc : s.lastArcTime + StreamFixed.arcInterval ≤ now
  · cases hp : s.pending with
    | nil =>
      rw [processPending_eq_empty now s hp]
      exact h
    | cons e rest =>
      rw [processPending_eq_deliver now s e rest hc hp]
      constructor
      · cases hd : s.delivered with
        | nil => rfl
        | cons p tl =>
          obtain ⟨t, a⟩ := p
          have h1 : StreamFixed.chronoB ((t, a) :: tl) = true := by
            rw [← hd]; exact h.1
          have h2 : t ≤ s.lastArcTime := h.2 t a tl hd
          show StreamFixed.chronoB
            ((now, StreamFixed.mkArc now e) :: (t, a) :: tl) = true
          unfold StreamFixed.chronoB
          rw [h1]
          simp only [Bool.and_true, decide_eq_true_eq]
          omega
      · intro t a rest2 heq
        have ht : t = now := by
          have := (List.cons.injEq _ _ _ _).mp heq
          exact (Prod.mk.injEq _ _ _ _).mp this.1.symm |>.1
        simp [ht]
  · rw [processPending_eq_skip now s hc]
    exact h

/-- Every hub input preserves the spacing invariant. -/
theorem hubInv_step (s : StreamFixed.HubState) (st : StreamFixed.HubStep)
    (h : StreamFixed.HubInv s) :
    StreamFixed.HubInv (StreamFixed.hubStep s st) := by
  cases st with
  | attack now e =>
    exact hubInv_process now { s with pending := s.pending ++ [e] } ⟨h.1, h.2⟩
  | tick now => exact hubInv_process now s h

/-- The spacing invariant holds along any run. -/
theorem hubInv_foldl (steps : List StreamFixed.HubStep)
    (s : StreamFixed.HubState) (h : StreamFixed.HubInv s) :
    StreamFixed.HubInv (steps.foldl StreamFixed.hubStep s) := by
  induction steps generalizing s with
  | nil => exact h
  | cons st tl ih => exact ih _ (hubInv_step s st h)

/-- C3: along every run of the hub, any two successive arc deliveries are
at least `arcInterval` (7000 ms) apart; and the first event arriving at a
freshly mounted hook (clock reading at least `arcInterval`, true of any
real clock) is delivered instantly, within the same `onmessage` call. -/
theorem c3_min_interval_between_deliveries :
    (∀ steps, StreamFixed.chronoB (StreamFixed.hubRun steps).delivered =
      true) ∧
      ∀ now e, StreamFixed.arcInterval ≤ now →
        StreamFixed.onAttackMessage now e StreamFixed.initHub =
          ⟨now, [], [(now, StreamFixed.mkArc now e)]⟩ := by
  constructor
  · intro steps
    refine (hubInv_foldl steps StreamFixed.initHub ⟨rfl, ?_⟩).1
    intro t a rest h
    cases h
  · intro now e h
    unfold StreamFixed.onAttackMessage
    rw [processPending_eq_deliver now _ e [] (by simpa using h) rfl]
    rfl

/-- C3 witness: at clock reading 1000000 ms the first event is delivered
immediately. -/
theorem c3_min_interval_witness :
    StreamFixed.arcInterval ≤ 1000000 ∧
      StreamFixed.onAttackMessage 1000000 Demo.devNone StreamFixed.initHub =
        ⟨1000000, [],
          [(1000000, StreamFixed.mkArc 1000000 Demo.devNone)]⟩ :=
  ⟨by decide,
   c3_min_interval_between_deliveries.2 1000000 Demo.devNone (by decide)⟩

/-- C4 counterexample: ten attack events arriving within 900 ms of each
other leave nine events in the pending queue (only the first was
delivered; no trimming happens between deliveries), so the queue is not
bounded by 5 at every moment. -/
theorem c4_counterexample :
    (StreamFixed.hubRun Demo.burst10).pending.length = 9 ∧
      5 < (StreamFixed.hubRun Demo.burst10).pending.length := by
  exact ⟨rfl, by decide⟩

/-- C4 amended: the pending queue is trimmed to at most 5 events only at
delivery time — whenever a delivery fires, the delivered event is the
oldest queued one and the queue that remains for the next drain tick is
the newest 5 (older entries dropped); between deliveries the queue can
grow beyond 5. -/
theorem c4_queue_trimmed_on_delivery (now : Int) (s : StreamFixed.HubState)
    (e : StreamFixed.DEvent) (rest : List StreamFixed.DEvent)
    (hp : s.pending = e :: rest)
    (hc : s.lastArcTime + StreamFixed.arcInterval ≤ now) :
    (StreamFixed.processPendingEvents now s).pending =
        rest.drop (rest.length - 5) ∧
      (StreamFixed.processPendingEvents now s).pending.length ≤ 5 ∧
      (StreamFixed.processPendingEvents now s).delivered =
        (now, StreamFixed.mkArc now e) :: s.delivered := by
  rw [processPending_eq_deliver now s e rest hc hp]
  have hq : (if rest.length > 5 then rest.drop (rest.length - 5) else rest) =
      rest.drop (rest.length - 5) := by
    by_cases h5 : rest.length > 5
    · rw [if_pos h5]
    · rw [if_neg h5]
      have : rest.length - 5 = 0 := by omega
      rw [this, List.drop_zero]
  refine ⟨hq, ?_, rfl⟩
  show (if rest.length > 5 then rest.drop (rest.length - 5) else rest).length ≤ 5
  rw [hq, List.length_drop]
  omega

/-- C4 witness: a queue of seven events is trimmed to five on delivery. -/
theorem c4_queue_trimmed_witness :
    Demo.hub7.pending = Demo.devNone :: List.replicate 6 Demo.devNone ∧
      Demo.hub7.lastArcTime + StreamFixed.arcInterval ≤ 1000000 ∧
      ((StreamFixed.processPendingEvents 1000000 Demo.hub7).pending =
          (List.replicate 6 Demo.devNone).drop
            ((List.replicate 6 Demo.devNone).length - 5) ∧
        (StreamFixed.processPendingEvents 1000000 Demo.hub7).pending.length ≤
          5 ∧
        (StreamFixed.processPendingEvents 1000000 Demo.hub7).delivered =
          (1000000, StreamFixed.mkArc 1000000 Demo.devNone) ::
            Demo.hub7.delivered) :=
  ⟨rfl, by decide,
   c4_queue_trimmed_on_delivery 1000000 Demo.hub7 Demo.devNone
     (List.replicate 6 Demo.devNone) rfl (by decide)⟩

/-- C2 counterexample: immediately after `ws.onopen` — a healthy live
connection with zero failures of any kind (the component keeps no failure
counter at all) — the mock-data timer is running and a firing of it
dispatches a synthetic attack, so synthetic events are generated while
the connection is healthy, not only after 3 consecutive failures. -/
theorem c2_counterexample :
    (LiveMode.liveRun
        [LiveMode.LiveInput.wsOpenEvt,
         LiveMode.LiveInput.mockFire Demo.unitedStates 0 0 0 0 0
           ("192.168.") 0 0 0 1000000]).wsOpen = true ∧
      (LiveMode.liveRun
        [LiveMode.LiveInput.wsOpenEvt,
         LiveMode.LiveInput.mockFire Demo.unitedStates 0 0 0 0 0
           ("192.168.") 0 0 0 1000000]).mockActive = true ∧
      (LiveMode.liveRun
        [LiveMode.LiveInput.wsOpenEvt,
         LiveMode.LiveInput.mockFire Demo.unitedStates 0 0 0 0 0
           ("192.168.") 0 0 0 1000000]).dispatched =
        [LiveMode.Dispatched.mock
          (LiveMode.generateMockAttack Demo.unitedStates 0 0 0 0 0
            ("192.168.") 0 0 0 1000000)] :=
  ⟨rfl, rfl, rfl⟩

/-- C2 amended: the client starts synthetic generation immediately when
the WebSocket connection opens (as a provisional fallback, with no
failure counting anywhere in the component), and synthetic generation
stops upon the first real attack message received; while the mock timer
is stopped, its firings dispatch nothing. -/
theorem c2_mock_start_stop :
    (∀ s, (LiveMode.liveStep s LiveMode.LiveInput.wsOpenEvt).mockActive =
      true) ∧
      (∀ s now msg, LiveMode.isRealAttackMsg msg = true →
        (LiveMode.liveStep s
          (LiveMode.LiveInput.wsMessage now (some msg))).mockActive =
          false) ∧
      ∀ s c r1 r2 r3 r4 r5 ipr i1 i2 i3 now, s.mockActive = false →
        LiveMode.liveStep s
          (LiveMode.LiveInput.mockFire c r1 r2 r3 r4 r5 ipr i1 i2 i3 now) =
          s := by
  refine ⟨fun s => rfl, fun s now msg h => ?_, fun s c r1 r2 r3 r4 r5 ipr i1 i2 i3 now h => ?_⟩
  · cases hd : LiveMode.liveDispatch now msg <;>
      simp [LiveMode.liveStep, h, hd]
  · simp [LiveMode.liveStep, h]

/-- C2 witness: a concrete real attack frame stops the mock generator
that the open event started; a mock firing on a stopped timer is a
no-op. -/
theorem c2_mock_start_stop_witness :
    LiveMode.isRealAttackMsg Demo.liveMsg85 = true ∧
      (LiveMode.liveStep
          (LiveMode.liveStep LiveMode.initLive LiveMode.LiveInput.wsOpenEvt)
          (LiveMode.LiveInput.wsMessage 2000 (some Demo.liveMsg85))).mockActive =
        false ∧
      LiveMode.initLive.mockActive = false ∧
      LiveMode.liveStep LiveMode.initLive
          (LiveMode.LiveInput.mockFire Demo.unitedStates 0 0 0 0 0
            ("192.168.") 0 0 0 7) =
        LiveMode.initLive :=
  ⟨rfl,
   c2_mock_start_stop.2.1
     (LiveMode.liveStep LiveMode.initLive LiveMode.LiveInput.wsOpenEvt) 2000
     Demo.liveMsg85 rfl,
   rfl,
   c2_mock_start_stop.2.2 LiveMode.initLive Demo.unitedStates 0 0 0 0 0
     "192.168." 0 0 0 7 rfl⟩

/-- A zero random draw indexes the first array element. -/
theorem randIdx_zero (k : ℕ) : Js.randIdx 0 k = 0 := by
  simp [Js.randIdx]

/-- Picking with a zero draw returns the head of a non-empty list. -/
theorem pickD_zero_cons {α : Type} (a : α) (t : List α) (d : α) :
    Js.pickD (a :: t) 0 d = a := by
  simp [Js.pickD, randIdx_zero]

/-- C6 counterexample: a concrete synthetic event produced by the mock
generator carries no `isFallback` property at all, and its `source`
field ("Botnet", an attack-source label) is not one of the fallback
markers the stream hooks recognize — so it is not recognizably marked as
fallback when it reaches a client. -/
theorem c6_counterexample :
    (LiveMode.generateMockAttack Demo.unitedStates 0 0 0 0 0
        ("192.168.") 0 0 0 1000000).isFallback = none ∧
      (LiveMode.generateMockAttack Demo.unitedStates 0 0 0 0 0
        ("192.168.") 0 0 0 1000000).source = "Botnet" ∧
      StreamFixed.isFallbackSource
        (some ((LiveMode.generateMockAttack Demo.unitedStates 0 0 0 0 0
          ("192.168.") 0 0 0 1000000).source)) = false := by
  have hsrc : (LiveMode.generateMockAttack Demo.unitedStates 0 0 0 0 0
      ("192.168.") 0 0 0 1000000).source = "Botnet" := by
    simp [LiveMode.generateMockAttack, Demo.unitedStates, pickD_zero_cons,
      LiveMode.generateRealisticSource, LiveMode.sourcesFor]
  refine ⟨rfl, hsrc, ?_⟩
  rw [hsrc]
  rfl

/-- C6 amended: events delivered by the stream hooks are tagged
`isFallback = true` exactly when their `source` is `"fallback/mock"` or
`"fallback/cache"` (the backend fallback markers); the frontend mock
generator's synthetic events carry no `isFallback` tag of their own. -/
theorem c6_fallback_tagging :
    (∀ now e, (StreamFixed.mkArc now e).isFallback =
        StreamFixed.isFallbackSource e.source) ∧
      ∀ c r1 r2 r3 r4 r5 ipr i1 i2 i3 now,
        (LiveMode.generateMockAttack c r1 r2 r3 r4 r5 ipr i1 i2 i3
          now).isFallback = none :=
  ⟨fun _ _ => rfl, fun _ _ _ _ _ _ _ _ _ _ _ => rfl⟩

/-- `Math.floor(r * k)` of a unit random draw lies in `[0, k)`. -/
theorem floor_rand_bounds (r : ℚ) (k : ℕ) (hk : 0 < k) (h0 : 0 ≤ r)
    (h1 : r < 1) : 0 ≤ ⌊r * (k : ℚ)⌋ ∧ ⌊r * (k : ℚ)⌋ < (k : ℤ) := by
  constructor
  · apply Int.le_floor.mpr
    push_cast
    have : (0 : ℚ) ≤ (k : ℚ) := by positivity
    nlinarith
  · apply Int.floor_lt.mpr
    push_cast
    have hkq : (0 : ℚ) < (k : ℚ) := by exact_mod_cast hk
    nlinarith

/-- The `confidencePct` switch always lands in `[40, 99]`. -/
theorem confidencePct_bounds (t : String) (r : ℚ) (h0 : 0 ≤ r)
    (h1 : r < 1) :
    40 ≤ LiveMode.confidencePct t r ∧ LiveMode.confidencePct t r ≤ 99 := by
  unfold LiveMode.confidencePct
  split_ifs with ha hb hc hd
  · have h := floor_rand_bounds r 15 (by norm_num) h0 h1
    push_cast at h ⊢
    omega
  · have h := floor_rand_bounds r 25 (by norm_num) h0 h1
    push_cast at h ⊢
    omega
  · have h := floor_rand_bounds r 30 (by norm_num) h0 h1
    push_cast at h ⊢
    omega
  · have h := floor_rand_bounds r 35 (by norm_num) h0 h1
    push_cast at h ⊢
    omega
  · have h := floor_rand_bounds r 40 (by norm_num) h0 h1
    push_cast at h ⊢
    omega

/-- `Math.round(q * 100)` of a fraction `q ∈ [0, 1]` lies in `[0, 100]`. -/
theorem jsRound_pct_bounds (q : ℚ) (h0 : 0 ≤ q) (h1 : q ≤ 1) :
    0 ≤ Js.jsRound (q * 100) ∧ Js.jsRound (q * 100) ≤ 100 := by
  unfold Js.jsRound
  constructor
  · apply Int.le_floor.mpr
    push_cast
    linarith
  · have h : ⌊q * 100 + 1 / 2⌋ < 101 := by
      apply Int.floor_lt.mpr
      push_cast
      linarith
    omega

/-- What a successful `/ws/live` re-dispatch contains: the resolved
coordinates and the rounded percent confidence. -/
theorem liveDispatch_some (now : Int) (msg : LiveMode.LiveMsg)
    (ev : LiveMode.WsEvent) (d : LiveMode.LiveDetail)
    (hev : msg.event = some ev)
    (hd : LiveMode.liveDispatch now msg = some d) :
    LiveMode.evLat ev = some d.lat ∧ LiveMode.evLng ev = some d.lng ∧
      d.confidencePct = Js.jsRound (ev.confidence.getD 0 * 100) := by
  unfold LiveMode.liveDispatch at hd
  by_cases hra : LiveMode.isRealAttackMsg msg = true
  · rw [if_pos hra, hev] at hd
    replace hd : (match LiveMode.evLat ev, LiveMode.evLng ev with
        | some la, some ln =>
          some ({ lat := la, lng := ln,
                  confidencePct := Js.jsRound (ev.confidence.getD 0 * 100),
                  ip := Js.orStr (Js.orStr ev.src_ip ev.ip) ev.ioc,
                  seenAt := Js.orIntD ev.seen_at now } : LiveMode.LiveDetail)
        | _, _ => none) = some d := hd
    cases hLat : LiveMode.evLat ev with
    | none =>
      rw [hLat] at hd
      cases hLng : LiveMode.evLng ev <;> rw [hLng] at hd <;> cases hd
    | some la =>
      cases hLng : LiveMode.evLng ev with
      | none =>
        rw [hLat, hLng] at hd
        cases hd
      | some ln =>
        rw [hLat, hLng] at hd
        simp only [Option.some.injEq] at hd
        subst hd
        exact ⟨rfl, rfl, rfl⟩
  · rw [if_neg hra] at hd
    cases hd

/-- C1 counterexample: a live `/ws/live` attack frame whose confidence is
85 — a value inside the 0–100 range the outbound stream protocol
documents for event confidence — is re-dispatched with
`confidencePct = Math.round(85 * 100) = 8500`, far outside `[0, 100]`:
the handler multiplies by 100 without clamping, so the confidence
attached to the delivered event is in `[0,100]` only for fractional
inputs. -/
theorem c1_counterexample :
    LiveMode.liveDispatch 999 Demo.liveMsg85 =
        some { lat := 40, lng := 50, confidencePct := 8500, ip := none,
               seenAt := 123 } ∧
      ¬(0 ≤ (8500 : ℤ) ∧ (8500 : ℤ) ≤ 100) := by
  constructor
  · norm_num [LiveMode.liveDispatch, LiveMode.isRealAttackMsg,
      Demo.liveMsg85, LiveMode.evLat, LiveMode.evLng, Js.jsRound,
      Js.orStr, Js.orIntD]
  · omega

/-- C1 amended: every synthetic event of the mock generator has
confidence in `[40, 99] ⊆ [0, 100]` and carries the selected city's
latitude/longitude; every re-dispatched live event carries the resolved
latitude/longitude of the incoming event (events without numeric
coordinates are dropped, not defaulted), and its rounded percent
confidence lies in `[0, 100]` provided the incoming confidence is a
fraction in `[0, 1]`. -/
theorem c1_confidence_and_geo (c : LiveMode.Country)
    (cityR attackR confR srcR tgtR : ℚ) (ipr : String) (i1 i2 i3 : ℚ)
    (now nowL : Int) (msg : LiveMode.LiveMsg) (ev : LiveMode.WsEvent)
    (d : LiveMode.LiveDetail) (h0 : 0 ≤ confR) (h1 : confR < 1)
    (hev : msg.event = some ev)
    (hd : LiveMode.liveDispatch nowL msg = some d)
    (hc0 : 0 ≤ ev.confidence.getD 0) (hc1 : ev.confidence.getD 0 ≤ 1) :
    (40 ≤ (LiveMode.generateMockAttack c cityR attackR confR srcR tgtR ipr
        i1 i2 i3 now).confidencePct ∧
      (LiveMode.generateMockAttack c cityR attackR confR srcR tgtR ipr
        i1 i2 i3 now).confidencePct ≤ 99) ∧
      (LiveMode.generateMockAttack c cityR attackR confR srcR tgtR ipr
        i1 i2 i3 now).lat = (Js.pickD c.cities cityR LiveMode.noCity).lat ∧
      (LiveMode.generateMockAttack c cityR attackR confR srcR tgtR ipr
        i1 i2 i3 now).lng = (Js.pickD c.cities cityR LiveMode.noCity).lng ∧
      (LiveMode.evLat ev = some d.lat ∧ LiveMode.evLng ev = some d.lng) ∧
      (0 ≤ d.confidencePct ∧ d.confidencePct ≤ 100) := by
  obtain ⟨hla, hln, hcp⟩ := liveDispatch_some nowL msg ev d hev hd
  refine ⟨?_, rfl, rfl, ⟨hla, hln⟩, ?_⟩
  · exact confidencePct_bounds _ confR h0 h1
  · rw [hcp]
    exact jsRound_pct_bounds _ hc0 hc1

/-- C1 witness: the mock generator on the United States entry with zero
draws, and a live frame with confidence `1/2` re-dispatched as 50%. -/
theorem c1_confidence_and_geo_witness :
    (0 : ℚ) ≤ 0 ∧ (0 : ℚ) < 1 ∧
      Demo.liveMsgHalf.event = some Demo.evHalf ∧
      LiveMode.liveDispatch 7 Demo.liveMsgHalf =
        some { lat := 40, lng := 50, confidencePct := 50, ip := none,
               seenAt := 123 } ∧
      0 ≤ Demo.evHalf.confidence.getD 0 ∧
      Demo.evHalf.confidence.getD 0 ≤ 1 ∧
      ((40 ≤ (LiveMode.generateMockAttack Demo.unitedStates 0 0 0 0 0
          ("192.168.") 0 0 0 1000000).confidencePct ∧
        (LiveMode.generateMockAttack Demo.unitedStates 0 0 0 0 0
          ("192.168.") 0 0 0 1000000).confidencePct ≤ 99) ∧
        (LiveMode.generateMockAttack Demo.unitedStates 0 0 0 0 0
          ("192.168.") 0 0 0 1000000).lat =
          (Js.pickD Demo.unitedStates.cities 0 LiveMode.noCity).lat ∧
        (LiveMode.generateMockAttack Demo.unitedStates 0 0 0 0 0
          ("192.168.") 0 0 0 1000000).lng =
          (Js.pickD Demo.unitedStates.cities 0 LiveMode.noCity).lng ∧
        (LiveMode.evLat Demo.evHalf =
            some (LiveMode.LiveDetail.lat
              { lat := 40, lng := 50, confidencePct := 50, ip := none,
                seenAt := 123 }) ∧
          LiveMode.evLng Demo.evHalf =
            some (LiveMode.LiveDetail.lng
              { lat := 40, lng := 50, confidencePct := 50, ip := none,
                seenAt := 123 })) ∧
        (0 ≤ LiveMode.LiveDetail.confidencePct
            { lat := 40, lng := 50, confidencePct := 50, ip := none,
              seenAt := 123 } ∧
          LiveMode.LiveDetail.confidencePct
              { lat := 40, lng := 50, confidencePct := 50, ip := none,
                seenAt := 123 } ≤ 100)) := by
  have hd : LiveMode.liveDispatch 7 Demo.liveMsgHalf =
      some { lat := 40, lng := 50, confidencePct := 50, ip := none,
             seenAt := 123 } := by
    norm_num [LiveMode.liveDispatch, LiveMode.isRealAttackMsg,
      Demo.liveMsgHalf, Demo.evHalf, LiveMode.evLat, LiveMode.evLng,
      Js.jsRound, Js.orStr, Js.orIntD]
  refine ⟨le_refl 0, by norm_num, rfl, hd, by norm_num [Demo.evHalf],
    by norm_num [Demo.evHalf], ?_⟩
  exact c1_confidence_and_geo Demo.unitedStates 0 0 0 0 0 "192.168." 0 0 0
    1000000 7 Demo.liveMsgHalf Demo.evHalf _ (le_refl 0) (by norm_num) rfl
    hd (by norm_num [Demo.evHalf]) (by norm_num [Demo.evHalf])

/-- C7 counterexample: a raw broadcast record whose geo fields are absent
is dropped by `useDShieldStream`: its raw-message branch requires numeric
end coordinates and adds no arc — the record is discarded rather than
defaulted to `(0, 0)`. -/
theorem c7_counterexample :
    StreamHook.streamOnMessage 5 (some Demo.rawNoGeo) = none := by
  rfl

/-- C7 amended: in the `useWebSocket` normalizer a record with no geo
payload and no precomputed arc is still normalized and recorded, with the
arc defaulted to the origin `(0, 0) → (0, 0)`; but in `useDShieldStream`
a raw broadcast without resolvable numeric end coordinates yields no arc
at all — that path drops, rather than defaults, geo-less records. -/
theorem c7_geo_defaults (now : Int) (raw : WsHook.WRaw)
    (events : List WsHook.WNorm) (nowS : Int) (m : StreamHook.SMsg)
    (h1 : raw.geo_info = none) (h2 : raw.geoInfo = none)
    (h3 : raw.geo = none) (h4 : raw.arc = none) (ht : m.type = none)
    (hlat : StreamHook.rawEndLat m = none) :
    (WsHook.handleMessage true now (some raw) events =
        (WsHook.normalizeRaw now raw :: events).take WsHook.MAX_EVENTS ∧
      (WsHook.normalizeRaw now raw).arc = ⟨0, 0, 0, 0⟩) ∧
      StreamHook.streamOnMessage nowS (some m) = none := by
  refine ⟨⟨rfl, ?_⟩, ?_⟩
  · simp [WsHook.normalizeRaw, h1, h2, h3, h4, WsHook.computeArcFromGeo,
      WsHook.emptyGeo]
  · cases hlng : StreamHook.rawEndLng m <;>
      simp [StreamHook.streamOnMessage, ht, hlat, hlng]

/-- C7 witness: the all-absent record is recorded with the default arc by
the normalizer and dropped by the raw stream branch. -/
theorem c7_geo_defaults_witness :
    Demo.rawEmpty.geo_info = none ∧ Demo.rawEmpty.geoInfo = none ∧
      Demo.rawEmpty.geo = none ∧ Demo.rawEmpty.arc = none ∧
      Demo.rawNoGeo.type = none ∧
      StreamHook.rawEndLat Demo.rawNoGeo = none ∧
      ((WsHook.handleMessage true 3 (some Demo.rawEmpty) [] =
          (WsHook.normalizeRaw 3 Demo.rawEmpty :: []).take
            WsHook.MAX_EVENTS ∧
        (WsHook.normalizeRaw 3 Demo.rawEmpty).arc = ⟨0, 0, 0, 0⟩) ∧
        StreamHook.streamOnMessage 5 (some Demo.rawNoGeo) = none) :=
  ⟨rfl, rfl, rfl, rfl, rfl, rfl,
   c7_geo_defaults 3 Demo.rawEmpty [] 5 Demo.rawNoGeo rfl rfl rfl rfl rfl
     rfl⟩
